import Mathlib

/-!
Verification of the resilient paginated-site crawler
(`Web_crapping_crawling/ex6_resilient_scraper/main.py`, with session
configuration also drawn from `Web_crapping_crawling/ex1_books/main.py`).

The Python source is shallowly embedded below:

* `JVal`, `pySubscript`, `truthy`, `pyMaxPlusOne`, `load_progress`,
  `resume_position`, `mainPrelude` model `load_progress()` (lines 47-50)
  and the resume computation in `main()` (lines 93-100), including
  Python's dynamic errors (`KeyError`, `TypeError`, `ValueError`,
  `json.JSONDecodeError`).
* `Progress`, `serializeProgress`, `save_progress_durable` model
  `save_progress` (lines 52-53): the file is opened with mode "w"
  (truncating it immediately) and the serialization is then written
  front to back, so the durable content after a crash at write
  position `t` is the first `t` characters of the new serialization;
  the prior content is already gone at `t = 0`.
* `is_ip_blocked`, `scrape_page` model lines 58-63 and 68-83.  The
  CSS-selector extraction and the next-link lookup are the pluggable
  extractor collaborator; they appear as a `parse` parameter returning
  the page's records and whether a next-page link exists.  Page
  addresses are represented by their page index (the next link of page
  i leads to page i+1, `catalogue/page-(i+1).html`).
* `engineStep`, `runTraceAux`, `runTrace` model the `while True` loop
  of `main()` (lines 102-120): each iteration scrapes the current
  page; on any exception the handler logs, sleeps 10s and `continue`s
  with the loop state unchanged in the failure cases that occur before
  the in-memory mutations, and with the mutations kept if
  `save_progress` itself raised; on success it extends
  `progress["books"]`, appends to `progress["done_pages"]`, saves, and
  either breaks (no next link) or advances to the next page.
* `RetryConfig`, `session_retry_config`, `create_session_config`,
  `session_retry_headers`, `create_session_headers` record the
  `urllib3 Retry` configuration and session headers set by
  `session_retry` (ex6, lines 30-38) and
  `create_session_with_retries` (ex1, lines 19-27).
-/

/-! ## Python-level JSON values and dynamic errors -/

inductive JVal where
  | jnull
  | jbool (b : Bool)
  | jnum (n : Int)
  | jstr (s : String)
  | jarr (elems : List JVal)
  | jobj (fields : List (String × JVal))

inductive PyErr where
  | keyError
  | typeError
  | valueError
  | jsonDecodeError
  deriving DecidableEq

/-- Python subscript `v[key]` with a string key: an object yields the bound
value or raises `KeyError`; every other JSON value raises `TypeError`
(lists and strings reject string indices, scalars are not subscriptable). -/
def pySubscript (v : JVal) (key : String) : Except PyErr JVal :=
  match v with
  | .jobj fields =>
    match fields.lookup key with
    | some x => .ok x
    | none => .error .keyError
  | _ => .error .typeError

/-- Python truthiness of a JSON value, as used by `if progress["done_pages"]:`. -/
def truthy : JVal → Bool
  | .jnull => false
  | .jbool b => b
  | .jnum n => n != 0
  | .jstr s => s != ""
  | .jarr elems => !elems.isEmpty
  | .jobj fields => !fields.isEmpty

/-- Numeric view of a JSON value for Python's `max`/`+`: numbers are
themselves and booleans are 0/1 (Python `bool` is an `int` subtype). -/
def pyNumVal : JVal → Option Int
  | .jnum n => some n
  | .jbool b => some (if b then 1 else 0)
  | _ => none

/-- Python `max(v) + 1` as used on line 99.  An empty list raises
`ValueError`; a list with a non-numeric element, or any non-list operand,
raises `TypeError` (either at the comparison inside `max` or at the
subsequent `+ 1`, e.g. `max` over a string yields a character and the
`+ 1` then raises; both surface as the same uncaught `TypeError`). -/
def pyMaxPlusOne (v : JVal) : Except PyErr Int :=
  match v with
  | .jarr elems =>
    match elems.mapM pyNumVal with
    | some [] => .error .valueError
    | some (n :: rest) => .ok (rest.foldl max n + 1)
    | none => .error .typeError
  | _ => .error .typeError

/-! ## Crawl State Store: load and the resume computation (lines 47-50, 93-100) -/

/-- State of the durable progress file as seen by `json.load`: missing,
present but not valid JSON, or parsed to a JSON value.  The JSON text
parser itself is the Python standard library, outside this repository;
a corrupt file is exactly one `json.load` raises on. -/
inductive FileState where
  | absent
  | corrupt
  | parsed (v : JVal)

def emptyProgressJson : JVal :=
  .jobj [("done_pages", .jarr []), ("books", .jarr [])]

/-- Embedding of `load_progress` (lines 47-50): the default object when the
file does not exist, the parsed value when it parses, and an uncaught
`json.JSONDecodeError` when it does not.  There is no fallback for a
corrupt file. -/
def load_progress : FileState → Except PyErr JVal
  | .absent => .ok emptyProgressJson
  | .corrupt => .error .jsonDecodeError
  | .parsed v => .ok v

/-- Embedding of lines 96-99: `page_index = 1`, then if
`progress["done_pages"]` is truthy, `page_index = max(...) + 1`. -/
def resume_position (progress : JVal) : Except PyErr Int := do
  let dp ← pySubscript progress "done_pages"
  if truthy dp then pyMaxPlusOne dp else pure 1

/-- Embedding of the prefix of `main()` before the crawl loop
(lines 93-100): load the progress file, then compute the resume page
index.  This runs before the `while True:` loop, so any error raised
here is outside the loop's `except Exception` handler and crashes the
program before any page is fetched. -/
def mainPrelude (fs : FileState) : Except PyErr (JVal × Int) := do
  let p ← load_progress fs
  let idx ← resume_position p
  pure (p, idx)

/-- Whether a JSON value is an object with a binding for `key`. -/
def JVal.hasKey : JVal → String → Bool
  | .jobj fields, key => (fields.lookup key).isSome
  | _, _ => false

/-! ## Typed crawl state, serialization, and the save path (lines 52-53) -/

/-- One extracted record.  The engine treats records as opaque data
(titles/prices concern only the extractor), so they are embedded as
opaque tokens. -/
abbrev Record := String

/-- The progress aggregate `{"done_pages": [...], "books": [...]}` of the
source, in its well-formed shape. -/
structure Progress where
  done_pages : List Nat
  books : List Record
  deriving DecidableEq

/-- Serialization of a `Progress` value as written by `json.dump`
(line 53), as a character sequence.  The exact whitespace of
`indent=2` is immaterial; what matters is that the serialization is a
nonempty text determined by the state being saved. -/
def serializeProgress (p : Progress) : List Char :=
  '\x7b' :: ("\"done_pages\": ".data ++ (toString p.done_pages).data
    ++ ", \"books\": ".data ++ (toString p.books).data ++ ['\x7d'])

/-- Durable content of the progress file when `save_progress(p)`
(lines 52-53) is interrupted after `t` characters have been written.
`open(PROGRESS_FILE, "w")` truncates the file at once, so the prior
content (`prior`) is destroyed before the first character of the new
serialization lands; there is no temporary file and no rename. -/
def save_progress_durable (prior : List Char) (p : Progress) (t : Nat) : List Char :=
  (serializeProgress p).take t

/-! ## Block detection and page scraping (lines 58-63, 68-83) -/

structure Response where
  status : Nat
  text : String

/-- Executable substring containment on character sequences, the meaning
of Python's `needle in hay` on strings. -/
def containsSeq : List Char → List Char → Bool
  | needle, [] => needle.isEmpty
  | needle, c :: rest => needle.isPrefixOf (c :: rest) || containsSeq needle rest

/-- Python's `s.lower()`: the characters of `s`, lowercased. -/
def lowerChars (s : String) : List Char := s.toList.map Char.toLower

/-- Embedding of `is_ip_blocked` (lines 58-63): status 429, or a
case-insensitive occurrence of "captcha" in the body. -/
def is_ip_blocked (r : Response) : Bool :=
  r.status == 429 || containsSeq ("captcha".toList) (lowerChars r.text)

inductive ScrapeErr where
  | ipBlocked
  | httpError (code : Nat)
  | connError
  deriving DecidableEq

/-- Embedding of `scrape_page` (lines 68-83) given the response of the
target page: raise "IP blocked" when `is_ip_blocked`, then
`raise_for_status()` (an exception for any 4xx/5xx status), then hand
the body to the extractor, which returns the page's records and
whether a next-page link exists. -/
def scrape_page (parse : String → List Record × Bool) (r : Response) :
    Except ScrapeErr (List Record × Bool) :=
  if is_ip_blocked r then .error .ipBlocked
  else if 400 ≤ r.status ∧ r.status < 600 then .error (.httpError r.status)
  else .ok (parse r.text)

/-! ## The crawl loop (lines 102-120) -/

structure EngineState where
  progress : Progress
  page_index : Nat
  deriving DecidableEq

inductive StepRes where
  | running (s : EngineState)
  | finished (s : EngineState)
  deriving DecidableEq

def StepRes.state : StepRes → EngineState
  | .running s => s
  | .finished s => s

def StepRes.isDone : StepRes → Bool
  | .running _ => false
  | .finished _ => true

/-- One iteration of the `while True:` loop (lines 102-120).  `server`
gives the response of each page index; `parse` is the extractor;
`saveOk` tells whether this iteration's `save_progress` call succeeds.
If `scrape_page` raises, the handler logs, sleeps and `continue`s with
the state unchanged.  On success, `progress["books"]` is extended and
`progress["done_pages"]` appended; if `save_progress` then raises, the
handler `continue`s but the in-memory mutations remain; otherwise the
loop breaks when no next link exists, or advances to the next page. -/
def engineStep (server : Nat → Response) (parse : String → List Record × Bool)
    (saveOk : Bool) (s : EngineState) : StepRes :=
  match scrape_page parse (server s.page_index) with
  | .error _ => .running s
  | .ok (books, hasNext) =>
    let p : Progress :=
      ⟨s.progress.done_pages ++ [s.page_index], s.progress.books ++ books⟩
    if saveOk then
      if hasNext then .running ⟨p, s.page_index + 1⟩
      else .finished ⟨p, s.page_index⟩
    else .running ⟨p, s.page_index⟩

/-- Iterated loop with explicit fuel, returning the list of page
indices fetched (in order), the final state, and whether the loop
reached its `break`.  `saveF k` tells whether the save of iteration
`k` succeeds; `k` counts iterations from the start of the run. -/
def runTraceAux (server : Nat → Response) (parse : String → List Record × Bool)
    (saveF : Nat → Bool) : Nat → Nat → EngineState → List Nat × EngineState × Bool
  | _, 0, s => ([], s, false)
  | k, fuel + 1, s =>
    match engineStep server parse (saveF k) s with
    | .finished s1 => ([s.page_index], s1, true)
    | .running s1 =>
      let r := runTraceAux server parse saveF (k + 1) fuel s1
      (s.page_index :: r.1, r.2.1, r.2.2)

def runTrace (server : Nat → Response) (parse : String → List Record × Bool)
    (saveF : Nat → Bool) (fuel : Nat) (s : EngineState) :
    List Nat × EngineState × Bool :=
  runTraceAux server parse saveF 0 fuel s

/-- Embedding of lines 96-100: the start page index of a run, from the
loaded `done_pages` list — `1` when the list is empty (the loop then
starts at the origin `BASE`), else Python's `max(done_pages) + 1`. -/
def resumeIndex (done : List Nat) : Nat :=
  match done with
  | [] => 1
  | h :: t => t.foldl max h + 1

/-- Loop state right after the resume computation: the loaded progress
and the computed start page index. -/
def initState (done : List Nat) (books : List Record) : EngineState :=
  ⟨⟨done, books⟩, resumeIndex done⟩

/-! ## Transport configuration (ex6 lines 30-38, ex1 lines 19-27) -/

structure RetryConfig where
  total : Nat
  backoff_factor : Nat
  status_forcelist : List Nat
  deriving DecidableEq

/-- Configuration built by `session_retry` (ex6, lines 30-38):
`Retry(total=5, backoff_factor=1, status_forcelist=[429,500,502,503,504])`. -/
def session_retry_config : RetryConfig :=
  ⟨5, 1, [429, 500, 502, 503, 504]⟩

/-- Configuration built by `create_session_with_retries` (ex1, lines 19-27)
for given `total` and `backoff_factor`. -/
def create_session_config (total backoff_factor : Nat) : RetryConfig :=
  ⟨total, backoff_factor, [429, 500, 502, 503, 504]⟩

/-- The ex1 defaults: `total=3, backoff_factor=1`. -/
def create_session_default_config : RetryConfig :=
  create_session_config 3 1

/-- Headers set on the session by `session_retry` (ex6): none — the code
mounts the retry adapter and sets no header, so no identifying
user-agent is configured by the crawler. -/
def session_retry_headers : List (String × String) := []

/-- Headers set on the session by `create_session_with_retries` (ex1,
line 26). -/
def create_session_headers : List (String × String) :=
  [("User-Agent", "Mozilla/5.0 (compatible; lab-scraper/1.0)")]

/-- What one fetch attempt of the stub server yields: an HTTP status, or
a connection-level failure. -/
inductive ServerReply where
  | status (code : Nat)
  | connFail
  deriving DecidableEq

inductive TransportOutcome where
  | success (attempts : Nat)
  | fatalError (attempts : Nat)
  deriving DecidableEq

/-- Whether a reply is retried by the configured `urllib3 Retry`:
connection failures always, statuses exactly when listed in
`status_forcelist`. -/
def retryable (cfg : RetryConfig) : ServerReply → Bool
  | .connFail => true
  | .status c => cfg.status_forcelist.contains c

/-- Modelled from the spec: the transport retry loop around a single
`session.get`.  The loop itself is implemented by `urllib3`'s `Retry`
class, a dependency outside this repository; the source only
configures it (`session_retry`, `create_session_with_retries`).  Per
the spec's Transport contract, up to `total` attempts are made,
retrying exactly on the configured retryable replies, and the failure
is escalated as a fatal error once all attempts are exhausted.
`server k` is the reply to attempt `k`; the second argument is the
remaining attempt budget, the third the number of attempts made. -/
def transport_fetch_go (cfg : RetryConfig) (server : Nat → ServerReply) :
    Nat → Nat → TransportOutcome
  | 0, made => .fatalError made
  | budget + 1, made =>
    if retryable cfg (server made) then transport_fetch_go cfg server budget (made + 1)
    else .success (made + 1)

/-- Modelled from the spec: one transport-level fetch with the
configured bounded retry. -/
def transport_fetch (cfg : RetryConfig) (server : Nat → ServerReply) : TransportOutcome :=
  transport_fetch_go cfg server cfg.total 0

/-- Modelled from the spec: the backoff slept before retry attempt
`attempt` (the initial request is attempt 0), namely
`backoff_factor * 2 ^ (attempt - 1)` seconds. -/
def backoff_interval (cfg : RetryConfig) (attempt : Nat) : Nat :=
  cfg.backoff_factor * 2 ^ (attempt - 1)

/-! ## Concrete stub servers, extractors and states used by witnesses -/

def saveT : Nat → Bool := fun _ => true

def serverW : Nat → Response := fun _ => ⟨200, "two records here"⟩

def parseW : String → List Record × Bool := fun _ => (["r"], false)

def srv404W : Nat → Response := fun _ => ⟨404, ""⟩

def srv429W : Nat → Response := fun _ => ⟨429, ""⟩

def st12 : EngineState := ⟨⟨[1, 2], ["r1", "r2"]⟩, 3⟩

def srvOkW : Nat → Response := fun _ => ⟨200, "page"⟩

def parseAB : String → List Record × Bool := fun _ => (["a", "b"], true)

def saveFailFirst : Nat → Bool := fun k => k != 0

def progressNoBooks : JVal := .jobj [("done_pages", .jarr [.jnum 1])]

/-- Records extracted from page `i` by the given extractor on the given
server. -/
def pageRecords (server : Nat → Response) (parse : String → List Record × Bool)
    (i : Nat) : List Record :=
  (parse (server i).text).1

/-! ## Helper lemmas -/

theorem serializeProgress_ne_nil (p : Progress) : serializeProgress p ≠ [] := by
  simp [serializeProgress]

theorem containsSeq_iff (needle hay : List Char) :
    containsSeq needle hay = true ↔ needle <:+: hay := by
  induction hay with
  | nil => simp [containsSeq]
  | cons c rest ih => simp [containsSeq, ih, List.infix_cons_iff]

theorem le_foldl_max (h : Nat) (t : List Nat) : ∀ x ∈ h :: t, x ≤ t.foldl max h := by
  induction t generalizing h with
  | nil =>
    intro x hx
    simp only [List.mem_singleton] at hx
    subst hx
    exact Nat.le_refl _
  | cons a t ih =>
    intro x hx
    have base : ∀ y ∈ max h a :: t, y ≤ t.foldl max (max h a) := ih (max h a)
    have hfold : (a :: t).foldl max h = t.foldl max (max h a) := rfl
    rw [hfold]
    rcases List.mem_cons.mp hx with rfl | hx1
    · exact Nat.le_trans (Nat.le_max_left x a) (base _ (List.mem_cons_self _ _))
    · rcases List.mem_cons.mp hx1 with rfl | hx2
      · exact Nat.le_trans (Nat.le_max_right h x) (base _ (List.mem_cons_self _ _))
      · exact base _ (List.mem_cons_of_mem _ hx2)

theorem foldl_max_mem (h : Nat) (t : List Nat) : t.foldl max h ∈ h :: t := by
  induction t generalizing h with
  | nil => simp
  | cons a t ih =>
    show t.foldl max (max h a) ∈ h :: a :: t
    rcases List.mem_cons.mp (ih (max h a)) with heq | hmem
    · rw [heq]
      rcases max_choice h a with hc | hc <;> rw [hc] <;> simp
    · simp [hmem]

theorem mem_lt_resumeIndex (done : List Nat) : ∀ i ∈ done, i < resumeIndex done := by
  cases done with
  | nil => simp
  | cons h t =>
    intro i hi
    have := le_foldl_max h t i hi
    show i < t.foldl max h + 1
    omega

/-! ## C2 — persistence is truncate-in-place, not atomic -/

/-- C2 (counterexample): the claim says an interrupted `save` never loses
the prior consistent snapshot.  Concretely, with the prior snapshot
`\x7bdone_pages: [1], books: [a, b]\x7d` on disk and a save of the next
state interrupted at write position 0, the durable file is empty — the
prior snapshot is gone — and at write position 3 the durable file is a
proper prefix equal to neither the prior nor the new serialization. -/
theorem save_atomicity_cex :
    save_progress_durable (serializeProgress ⟨[1], ["a", "b"]⟩)
      ⟨[1, 2], ["a", "b", "c", "d"]⟩ 0 = [] ∧
    serializeProgress ⟨[1], ["a", "b"]⟩ ≠ [] ∧
    save_progress_durable (serializeProgress ⟨[1], ["a", "b"]⟩)
      ⟨[1, 2], ["a", "b", "c", "d"]⟩ 3 ≠ serializeProgress ⟨[1], ["a", "b"]⟩ ∧
    save_progress_durable (serializeProgress ⟨[1], ["a", "b"]⟩)
      ⟨[1, 2], ["a", "b", "c", "d"]⟩ 3 ≠ serializeProgress ⟨[1, 2], ["a", "b", "c", "d"]⟩ := by
  refine ⟨rfl, ?_, ?_, ?_⟩ <;> decide

/-- C2 (amended): `save_progress` writes the serialized state directly
into the progress file opened in truncating write mode, with no
temporary file and no rename, so it is not atomic with respect to
crashes: a save that completes leaves the full new serialization, but a
crash at the start of a save leaves an empty file — in particular the
prior consistent snapshot does not survive a mid-save fault. -/
theorem save_truncate_write (prior : List Char) (p q : Progress) :
    save_progress_durable prior p (serializeProgress p).length = serializeProgress p ∧
    save_progress_durable prior p 0 = [] ∧
    serializeProgress q ≠ [] ∧
    save_progress_durable (serializeProgress q) p 0 ≠ serializeProgress q := by
  refine ⟨List.take_length _, rfl, serializeProgress_ne_nil q, ?_⟩
  intro hcontra
  exact serializeProgress_ne_nil q hcontra.symm

/-! ## C5 — load returns empty state when the file is missing, but a
corrupt file crashes the run -/

/-- C5 (counterexample): the claim says a corrupt state file falls back
to an empty CrawlState instead of crashing.  In the code, `json.load`'s
decode error propagates out of `load_progress` (and out of `main`'s
pre-loop code, where no handler is installed): the result is the
uncaught error, not the empty state. -/
theorem corrupt_state_crash_cex :
    mainPrelude .corrupt = .error .jsonDecodeError ∧
    load_progress .corrupt ≠ .ok emptyProgressJson :=
  ⟨rfl, fun h => nomatch h⟩

/-- C5 (amended): `load_progress` returns the empty progress object when
no state file exists (and the resume computation then starts at page 1),
but a corrupt or partial state file raises an uncaught
`json.JSONDecodeError` that crashes the run; there is no fallback to the
empty state. -/
theorem load_robustness_amended :
    load_progress .absent = .ok emptyProgressJson ∧
    mainPrelude .absent = .ok (emptyProgressJson, 1) ∧
    load_progress .corrupt = .error .jsonDecodeError ∧
    mainPrelude .corrupt = .error .jsonDecodeError :=
  ⟨rfl, rfl, rfl, rfl⟩

/-! ## C8 — the block detector -/

/-- C8: `is_ip_blocked` returns true exactly when the response status is
429 or the body contains a case-insensitive occurrence of the
anti-automation marker "captcha" (the code's denylist); otherwise it
returns false. -/
theorem block_detector_characterization (status : Nat) (body : String) :
    is_ip_blocked ⟨status, body⟩ = true ↔
      status = 429 ∨ "captcha".toList <:+: lowerChars body := by
  simp [is_ip_blocked, containsSeq_iff]

/-- C8 (witness): a non-429 response whose body contains "CAPTCHA" is
classified as blocked. -/
theorem block_detector_characterization_witness :
    is_ip_blocked ⟨200, "Please solve the CAPTCHA to continue"⟩ = true :=
  (block_detector_characterization 200 ("Please solve the CAPTCHA to continue")).mpr
    (Or.inr ((containsSeq_iff ("captcha".toList)
      (lowerChars ("Please solve the CAPTCHA to continue"))).mp (by decide)))

/-! ## C9 — client identification header -/

/-- C9 (counterexample): the claim says every request of the crawler
carries a fixed identifying user-agent header.  The resilient scraper's
`session_retry` (ex6, lines 30-38) mounts the retry adapter and sets no
header at all, so the requests of the resilient crawl run carry no
user-agent configured by the code (only whatever default the HTTP
library ships, which identifies the library and varies with its
version, not a fixed identifying string of the crawler). -/
theorem client_header_missing_cex :
    session_retry_headers.lookup ("User-Agent") = none := rfl

/-- C9 (amended): only `create_session_with_retries` (ex1, line 26) sets
the fixed identifying user-agent "Mozilla/5.0 (compatible;
lab-scraper/1.0)"; the resilient scraper's `session_retry` (ex6)
configures no user-agent header, so its requests carry no fixed
identifying client header. -/
theorem client_header_amended :
    create_session_headers.lookup ("User-Agent") =
      some ("Mozilla/5.0 (compatible; lab-scraper/1.0)") ∧
    session_retry_headers.lookup ("User-Agent") = none :=
  ⟨rfl, rfl⟩

/-! ## C10 — schema of the progress file is not validated -/

/-- C10 (amended): `load_progress` returns the parsed progress file
content without any schema validation, so when the file exists and
parses as JSON but is not an object containing the key "done_pages"
(e.g. an empty object or a list), the run raises an uncaught
`KeyError`/`TypeError` while computing the resume position — before the
crawl loop starts, hence before any page is fetched and outside the
loop's `except Exception` handler — crashing the whole program.  (An
object that has "done_pages" but lacks "books" does not crash there:
see the counterexample.) -/
theorem schema_gap_crash (v : JVal) (h : v.hasKey ("done_pages") = false) :
    ∃ e, mainPrelude (.parsed v) = .error e ∧
      (e = PyErr.keyError ∨ e = PyErr.typeError) := by
  cases v with
  | jobj fields =>
    cases hl : fields.lookup ("done_pages") with
    | some x => simp [JVal.hasKey, hl] at h
    | none =>
      refine ⟨.keyError, ?_, .inl rfl⟩
      simp [mainPrelude, load_progress, resume_position, pySubscript, hl,
        Bind.bind, Except.bind]
  | jnull => exact ⟨.typeError, rfl, .inr rfl⟩
  | jbool b => exact ⟨.typeError, rfl, .inr rfl⟩
  | jnum n => exact ⟨.typeError, rfl, .inr rfl⟩
  | jstr s => exact ⟨.typeError, rfl, .inr rfl⟩
  | jarr es => exact ⟨.typeError, rfl, .inr rfl⟩

/-- C10 (witness): a progress file parsing to a JSON list crashes the
resume computation with a `TypeError`-class error. -/
theorem schema_gap_crash_witness :
    JVal.hasKey (JVal.jarr []) ("done_pages") = false ∧
    ∃ e, mainPrelude (.parsed (JVal.jarr [])) = .error e ∧
      (e = PyErr.keyError ∨ e = PyErr.typeError) :=
  ⟨rfl, schema_gap_crash (JVal.jarr []) rfl⟩

/-- C10 (counterexample): the claim predicts a crash at the resume
computation for every JSON value that is not an object containing both
"done_pages" and "books".  But `\x7b"done_pages": [1]\x7d` — an object
lacking "books" — resumes fine (start index 2, no error before the
loop); the later `KeyError` on `progress["books"]` is raised inside the
loop's `try` and caught by the generic handler, so the program does not
crash there as claimed. -/
theorem schema_gap_cex :
    progressNoBooks.hasKey ("books") = false ∧
    mainPrelude (.parsed progressNoBooks) = .ok (progressNoBooks, 2) :=
  ⟨rfl, rfl⟩

/-! ## C6 — transport retry configuration and bound -/

/-- C6: the transports are configured with totals 5 (ex6) and 3 (ex1
default) and retry exactly on status codes 429, 500, 502, 503, 504 and
on connection failures; with total 3 against a server that always
returns 503, exactly 3 attempts occur before the failure escalates as a
fatal error, a non-retryable status succeeds on the first attempt, and
the backoff before retry attempt k is `backoff_factor * 2 ^ (k - 1)`
seconds, strictly increasing across retries (1s then 2s here). -/
theorem transport_retry_bound :
    session_retry_config.total = 5 ∧
    create_session_default_config.total = 3 ∧
    session_retry_config.status_forcelist = [429, 500, 502, 503, 504] ∧
    create_session_default_config.status_forcelist = [429, 500, 502, 503, 504] ∧
    (∀ c : Nat, retryable create_session_default_config (.status c) = true ↔
      c ∈ [429, 500, 502, 503, 504]) ∧
    retryable create_session_default_config .connFail = true ∧
    transport_fetch create_session_default_config (fun _ => .status 503) = .fatalError 3 ∧
    transport_fetch create_session_default_config (fun _ => .status 200) = .success 1 ∧
    backoff_interval create_session_default_config 1 = 1 ∧
    backoff_interval create_session_default_config 2 = 2 ∧
    ∀ k : Nat, backoff_interval create_session_default_config (k + 1) <
      backoff_interval create_session_default_config (k + 2) := by
  refine ⟨rfl, rfl, rfl, rfl, ?_, rfl, by decide, rfl, rfl, rfl, ?_⟩
  · intro c
    simp [retryable, create_session_default_config, create_session_config,
      List.contains, List.elem_iff]
  · intro k
    show 1 * 2 ^ (k + 1 - 1) < 1 * 2 ^ (k + 2 - 1)
    have h1 : k + 1 - 1 = k := by omega
    have h2 : k + 2 - 1 = k + 1 := by omega
    rw [h1, h2, Nat.one_mul, Nat.one_mul]
    exact Nat.pow_lt_pow_succ (by omega)

/-- C6 (witness): 503 is among the retried status codes of the
configured transport. -/
theorem transport_retry_bound_witness :
    retryable create_session_default_config (ServerReply.status 503) = true :=
  (transport_retry_bound.2.2.2.2.1 503).mpr (by decide)

/-! ## Engine step lemmas -/

theorem engineStep_running_le (server : Nat → Response)
    (parse : String → List Record × Bool) (so : Bool) (s s1 : EngineState)
    (h : engineStep server parse so s = .running s1) :
    s.page_index ≤ s1.page_index := by
  unfold engineStep at h
  split at h
  · simp only [StepRes.running.injEq] at h
    subst h
    exact Nat.le_refl _
  · dsimp only at h
    split at h
    · split at h
      · simp only [StepRes.running.injEq] at h
        rw [← h]
        exact Nat.le_succ _
      · simp at h
    · simp only [StepRes.running.injEq] at h
      rw [← h]

theorem runTraceAux_fetched_ge (server : Nat → Response)
    (parse : String → List Record × Bool) (saveF : Nat → Bool) :
    ∀ fuel k s, ∀ p ∈ (runTraceAux server parse saveF k fuel s).1,
      s.page_index ≤ p := by
  intro fuel
  induction fuel with
  | zero =>
    intro k s p hp
    simp [runTraceAux] at hp
  | succ n ih =>
    intro k s p hp
    unfold runTraceAux at hp
    cases hstep : engineStep server parse (saveF k) s with
    | finished s1 =>
      rw [hstep] at hp
      simp only [List.mem_singleton] at hp
      subst hp
      exact Nat.le_refl _
    | running s1 =>
      rw [hstep] at hp
      simp only [List.mem_cons] at hp
      rcases hp with rfl | hp
      · exact Nat.le_refl _
      · exact Nat.le_trans (engineStep_running_le server parse (saveF k) s s1 hstep)
          (ih (k + 1) s1 p hp)

theorem runTraceAux_head (server : Nat → Response)
    (parse : String → List Record × Bool) (saveF : Nat → Bool)
    (k : Nat) (fuel : Nat) (s : EngineState) (hf : 0 < fuel) :
    ((runTraceAux server parse saveF k fuel s).1).head? = some s.page_index := by
  cases fuel with
  | zero => omega
  | succ n =>
    unfold runTraceAux
    cases hstep : engineStep server parse (saveF k) s <;> simp [hstep]

/-! ## C1 — resume rule -/

/-- C1: when the crawl starts from a loaded state whose `done_pages` is
non-empty, the start page index is `max(done_pages) + 1` (it exceeds
every completed index and, minus one, is itself a completed index), the
first fetched page is that start page, and no page of `done_pages` is
ever fetched again during the run; when `done_pages` is empty the run
starts at the origin's first page (index 1). -/
theorem resume_rule (done : List Nat) (books : List Record)
    (server : Nat → Response) (parse : String → List Record × Bool)
    (saveF : Nat → Bool) (fuel : Nat) :
    (done = [] → resumeIndex done = 1) ∧
    (done ≠ [] → resumeIndex done - 1 ∈ done) ∧
    (∀ i ∈ done, i < resumeIndex done) ∧
    (0 < fuel →
      ((runTrace server parse saveF fuel (initState done books)).1).head? =
        some (resumeIndex done)) ∧
    ∀ p ∈ (runTrace server parse saveF fuel (initState done books)).1, p ∉ done := by
  refine ⟨?_, ?_, mem_lt_resumeIndex done, ?_, ?_⟩
  · rintro rfl
    rfl
  · intro hne
    cases done with
    | nil => exact absurd rfl hne
    | cons h t =>
      show t.foldl max h + 1 - 1 ∈ h :: t
      simpa using foldl_max_mem h t
  · intro hf
    exact runTraceAux_head server parse saveF 0 fuel (initState done books) hf
  · intro p hp hmem
    have h1 : (initState done books).page_index ≤ p :=
      runTraceAux_fetched_ge server parse saveF fuel 0 (initState done books) p hp
    have h2 : p < resumeIndex done := mem_lt_resumeIndex done p hmem
    have h3 : resumeIndex done ≤ p := h1
    omega

/-- C1 (witness): with completed pages \x7b2, 5\x7d the run resumes at
page 6 = max + 1, and the fetched pages avoid the completed ones. -/
theorem resume_rule_witness :
    (([2, 5] : List Nat) ≠ [] ∧ resumeIndex [2, 5] - 1 ∈ ([2, 5] : List Nat)) ∧
    ((0 : Nat) < 1 ∧
      ((runTrace serverW parseW saveT 1 (initState [2, 5] [])).1).head? =
        some (resumeIndex [2, 5])) :=
  ⟨⟨by decide, (resume_rule [2, 5] [] serverW parseW saveT 1).2.1 (by decide)⟩,
   ⟨by decide, (resume_rule [2, 5] [] serverW parseW saveT 1).2.2.2.1 (by decide)⟩⟩

/-! ## C3 — 404 is not a graceful end -/

/-- C3 (counterexample): the claim says an HTTP 404 is treated as the
normal terminal condition and the run transitions to Done.  In the
code, `scrape_page` calls `raise_for_status()`, so a 404 raises an
`HTTPError` that the loop's generic handler catches: the iteration
leaves the state unchanged and retries the same page — it does not
finish the run. -/
theorem notFound_done_cex :
    engineStep srv404W parseW true (initState [] []) = .running (initState [] []) ∧
    (engineStep srv404W parseW true (initState [] [])).isDone = false := by
  constructor <;> decide

/-- C3 (amended): a fetch that returns HTTP 404 (and is not classified
as blocked) raises through `raise_for_status()` and is handled by the
engine's generic exception handler: the loop state is unchanged and the
same page is retried after the 10s cooldown, indefinitely; the run
transitions to Done only when a successfully scraped page has no next
link, never because of a 404. -/
theorem notFound_is_retried (server : Nat → Response)
    (parse : String → List Record × Bool) (saveOk : Bool) (s : EngineState)
    (h404 : (server s.page_index).status = 404)
    (hnb : is_ip_blocked (server s.page_index) = false) :
    engineStep server parse saveOk s = .running s := by
  unfold engineStep scrape_page
  rw [hnb]
  simp [h404]

/-- C3 (witness): a page answering 404 with an empty body is retried
with the state unchanged. -/
theorem notFound_is_retried_witness :
    ((srv404W (initState [] []).page_index).status = 404 ∧
      is_ip_blocked (srv404W (initState [] []).page_index) = false) ∧
    engineStep srv404W parseW true (initState [] []) = .running (initState [] []) :=
  ⟨⟨by decide, by decide⟩,
   notFound_is_retried srv404W parseW true (initState [] []) (by decide) (by decide)⟩

/-! ## C4 — a block does not abort the run -/

/-- C4 (counterexample): the claim says a blocked page (HTTP 429) makes
the engine abort the run as a terminal state and never auto-retry the
blocked page.  With a server answering 429 on page 3 and pages 1-2
already completed, three loop iterations fetch page 3 three times (the
handler catches the "IP blocked" exception and retries the same page),
the state stays exactly as it was — pages 1-2 remain persisted and 3 is
not added — and the run is not finished: there is no terminal abort. -/
theorem block_abort_cex :
    (runTrace srv429W parseW saveT 3 st12).1 = [3, 3, 3] ∧
    (runTrace srv429W parseW saveT 3 st12).2.1 = st12 ∧
    (runTrace srv429W parseW saveT 3 st12).2.2 = false := by
  refine ⟨?_, ?_, ?_⟩ <;> decide

/-- C4 (amended): a response classified as blocked (429 or anti-bot
content) raises "IP blocked" before normal status handling, but the
engine's generic handler catches it and retries the same page after the
cooldown, indefinitely — the run never aborts as a terminal state; the
blocked page's index is never added to `done_pages` and previously
completed pages remain persisted (the state is unchanged).  Moreover
429 sits in the transport's `status_forcelist`, so at the transport
level a 429 is first silently retried like a generic transient error. -/
theorem blocked_is_retried_not_terminal (server : Nat → Response)
    (parse : String → List Record × Bool) (saveOk : Bool) (s : EngineState)
    (hb : is_ip_blocked (server s.page_index) = true) :
    engineStep server parse saveOk s = .running s ∧
    429 ∈ session_retry_config.status_forcelist := by
  constructor
  · unfold engineStep scrape_page
    rw [hb]
    simp
  · decide

/-- C4 (witness): a 429 page with pages 1-2 completed is retried with
the state unchanged, and 429 is transport-retried. -/
theorem blocked_is_retried_witness :
    is_ip_blocked (srv429W st12.page_index) = true ∧
    engineStep srv429W parseW true st12 = .running st12 ∧
    429 ∈ session_retry_config.status_forcelist :=
  ⟨by decide,
   (blocked_is_retried_not_terminal srv429W parseW true st12 (by decide)).1,
   (blocked_is_retried_not_terminal srv429W parseW true st12 (by decide)).2⟩

/-! ## C7 — pairing of completed pages and records -/

theorem range1_concat (s m : Nat) :
    List.range' s (m + 1) = List.range' s m ++ [s + m] := by
  induction m generalizing s with
  | zero => simp
  | succ n ih =>
    show s :: List.range' (s + 1) (n + 1) = (s :: List.range' (s + 1) n) ++ [s + (n + 1)]
    rw [ih (s + 1)]
    have he : s + 1 + n = s + (n + 1) := by omega
    simp [he]

theorem range1_nodup (s m : Nat) : (List.range' s m).Nodup := by
  induction m generalizing s with
  | zero => exact List.nodup_nil
  | succ n ih =>
    show (s :: List.range' (s + 1) n).Nodup
    refine List.nodup_cons.mpr ⟨?_, ih (s + 1)⟩
    intro hmem
    rw [List.mem_range'] at hmem
    obtain ⟨i, hi, he⟩ := hmem
    omega

theorem runTraceAux_allsave_inv (server : Nat → Response)
    (parse : String → List Record × Bool) :
    ∀ fuel k m s,
      s.progress.done_pages = List.range' 1 m →
      s.progress.books = (List.range' 1 m).flatMap (pageRecords server parse) →
      s.page_index = m + 1 →
      ∃ m1,
        (runTraceAux server parse (fun _ => true) k fuel s).2.1.progress.done_pages =
          List.range' 1 m1 ∧
        (runTraceAux server parse (fun _ => true) k fuel s).2.1.progress.books =
          (List.range' 1 m1).flatMap (pageRecords server parse) := by
  intro fuel
  induction fuel with
  | zero =>
    intro k m s h1 h2 h3
    exact ⟨m, by simpa [runTraceAux] using h1, by simpa [runTraceAux] using h2⟩
  | succ n ih =>
    intro k m s h1 h2 h3
    unfold runTraceAux
    cases hs : scrape_page parse (server s.page_index) with
    | error e =>
      have hstep : engineStep server parse ((fun _ => true) k) s = .running s := by
        unfold engineStep
        rw [hs]
      rw [hstep]
      exact ih (k + 1) m s h1 h2 h3
    | ok br =>
      obtain ⟨bs, hasNext⟩ := br
      have hbs : bs = pageRecords server parse s.page_index := by
        unfold scrape_page at hs
        split at hs
        · simp at hs
        · split at hs
          · simp at hs
          · simp only [Except.ok.injEq] at hs
            rw [show bs = (parse (server s.page_index).text).1 by rw [hs]]
            rfl
      have hdone : s.progress.done_pages ++ [s.page_index] = List.range' 1 (m + 1) := by
        rw [h1, h3, range1_concat]
        have he : 1 + m = m + 1 := by omega
        rw [he]
      have hbooks : s.progress.books ++ bs =
          (List.range' 1 (m + 1)).flatMap (pageRecords server parse) := by
        rw [h2, hbs, h3, range1_concat]
        have he : 1 + m = m + 1 := by omega
        rw [he, List.flatMap_append]
        simp
      cases hasNext with
      | true =>
        have hstep : engineStep server parse ((fun _ => true) k) s =
            .running ⟨⟨s.progress.done_pages ++ [s.page_index],
              s.progress.books ++ bs⟩, s.page_index + 1⟩ := by
          unfold engineStep
          rw [hs]
          rfl
        rw [hstep]
        exact ih (k + 1) (m + 1)
          ⟨⟨s.progress.done_pages ++ [s.page_index], s.progress.books ++ bs⟩,
            s.page_index + 1⟩
          hdone hbooks (by simp [h3])
      | false =>
        have hstep : engineStep server parse ((fun _ => true) k) s =
            .finished ⟨⟨s.progress.done_pages ++ [s.page_index],
              s.progress.books ++ bs⟩, s.page_index⟩ := by
          unfold engineStep
          rw [hs]
          rfl
        rw [hstep]
        exact ⟨m + 1, hdone, hbooks⟩

/-- C7 (amended): starting from the empty CrawlState, in every state
reachable by the engine in a run where every `save_progress` call
succeeds, `done_pages` is duplicate-free and `records` is exactly the
concatenation, in order, of each completed page's records — each
completed page's records are present exactly once and were appended as
a single unit with the page's index.  When a save can itself raise,
this fails: the handler retries the page whose in-memory mutations were
already applied and its records are appended again (see the
counterexample). -/
theorem pairing_invariant_saves_ok (server : Nat → Response)
    (parse : String → List Record × Bool) (fuel : Nat) :
    ((runTrace server parse (fun _ => true) fuel (initState [] [])).2.1).progress.done_pages.Nodup ∧
    ((runTrace server parse (fun _ => true) fuel (initState [] [])).2.1).progress.books =
      ((runTrace server parse (fun _ => true) fuel (initState [] [])).2.1).progress.done_pages.flatMap
        (pageRecords server parse) := by
  obtain ⟨m1, hd, hb⟩ :=
    runTraceAux_allsave_inv server parse fuel 0 0 (initState [] []) rfl rfl rfl
  refine ⟨?_, ?_⟩
  · rw [show runTrace server parse (fun _ => true) fuel (initState [] []) =
      runTraceAux server parse (fun _ => true) 0 fuel (initState [] []) from rfl, hd]
    exact range1_nodup 1 m1
  · rw [show runTrace server parse (fun _ => true) fuel (initState [] []) =
      runTraceAux server parse (fun _ => true) 0 fuel (initState [] []) from rfl, hd, hb]

/-- C7 (counterexample): the claim says no reachable state — including
states reached after an error and an engine retry of the same page —
has a page's records appended more than once.  But when the save of
iteration 0 raises (after the in-memory mutations of lines 107-108),
the handler retries page 1: after two iterations `done_pages` is
`[1, 1]` and page 1's records appear twice in `books`, so page 1 is a
completed page whose records are not present exactly once. -/
theorem pairing_invariant_cex :
    (runTrace srvOkW parseAB saveFailFirst 2 (initState [] [])).2.1.progress.done_pages = [1, 1] ∧
    (runTrace srvOkW parseAB saveFailFirst 2 (initState [] [])).2.1.progress.books =
      ["a", "b", "a", "b"] ∧
    ¬((runTrace srvOkW parseAB saveFailFirst 2 (initState [] [])).2.1.progress.books.count ("a") = 1) := by
  refine ⟨?_, ?_, ?_⟩ <;> decide

/-- C2 (witness for the amended statement): evaluated at the empty
progress value, a completed save keeps nothing of a crashed one. -/
theorem save_truncate_write_witness :
    save_progress_durable [] ⟨[], []⟩ 0 = [] ∧
    serializeProgress ⟨[], []⟩ ≠ [] :=
  ⟨(save_truncate_write [] ⟨[], []⟩ ⟨[], []⟩).2.1,
   (save_truncate_write [] ⟨[], []⟩ ⟨[], []⟩).2.2.1⟩

/-- C7 (witness for the amended statement): on a concrete two-iteration
run with all saves succeeding, the final `done_pages` is duplicate-free
and `books` matches the completed pages' records. -/
theorem pairing_invariant_saves_ok_witness :
    ((runTrace srvOkW parseAB (fun _ => true) 2 (initState [] [])).2.1).progress.done_pages.Nodup ∧
    ((runTrace srvOkW parseAB (fun _ => true) 2 (initState [] [])).2.1).progress.books =
      ((runTrace srvOkW parseAB (fun _ => true) 2 (initState [] [])).2.1).progress.done_pages.flatMap
        (pageRecords srvOkW parseAB) :=
  pairing_invariant_saves_ok srvOkW parseAB 2
